import Mathlib

/-!
Verification development for the `render-status` tool: a shallow embedding of
`src/render_status_deploys/client.py` and `src/render_status_deploys/cli.py`.

Modelling conventions:
* Python dictionaries coming from the JSON API are embedded as typed
  structures whose fields are `Option`-valued where the code accesses them
  with `dict.get`.
* Raised exceptions are embedded as `Except String` values; a function that
  cannot raise is total.
* The HTTP layer is abstracted: a `RenderClient` record holds, for each of the
  three endpoints, the (already JSON-decoded) result the call would produce.
* The calendar arithmetic used by `datetime.astimezone` is modelled over an
  unbounded proleptic Gregorian calendar; CPython's `datetime` additionally
  restricts years to 1..9999 (see `astimezone_in_range` for where that limit
  becomes observable).
-/

/-! ## Generic string-search helpers (used only to state properties) -/

/-- `starts_with_l p l` : the char list `p` is a prefix of `l`. -/
def starts_with_l : List Char → List Char → Bool
  | [], _ => true
  | _ :: _, [] => false
  | a :: p, b :: l => (a == b) && starts_with_l p l

/-- `occurs_in p l` : the char list `p` occurs contiguously inside `l`. -/
def occurs_in (p : List Char) : List Char → Bool
  | [] => starts_with_l p []
  | b :: l => starts_with_l p (b :: l) || occurs_in p l

/-- `str_contains s t` : `t` occurs as a contiguous substring of `s`. -/
def str_contains (s t : String) : Bool :=
  occurs_in t.data s.data

/-- `str_ends_with s t` : `t` is a suffix of `s`. -/
def str_ends_with (s t : String) : Bool :=
  starts_with_l t.data.reverse s.data.reverse

theorem starts_with_l_self_append (p r : List Char) : starts_with_l p (p ++ r) = true := by
  induction p with
  | nil => rfl
  | cons a p ih => simp [starts_with_l, ih]

theorem starts_with_l_mono {p l : List Char} (r : List Char)
    (h : starts_with_l p l = true) : starts_with_l p (l ++ r) = true := by
  induction p generalizing l with
  | nil => rfl
  | cons a p ih =>
    cases l with
    | nil => simp [starts_with_l] at h
    | cons b l =>
      simp [starts_with_l] at h ⊢
      exact ⟨h.1, ih h.2⟩

theorem occurs_in_of_starts {p l : List Char} (h : starts_with_l p l = true) :
    occurs_in p l = true := by
  cases l with
  | nil => simpa [occurs_in] using h
  | cons b l => simp [occurs_in, h]

theorem occurs_in_append_left {p l : List Char} (x : List Char)
    (h : occurs_in p l = true) : occurs_in p (x ++ l) = true := by
  induction x with
  | nil => simpa using h
  | cons c x ih =>
    cases hl : x ++ l with
    | nil => simp [hl] at ih; simp [occurs_in, hl, ih]
    | cons d m => simp [occurs_in, hl] at ih ⊢; simp [ih]

theorem occurs_in_append_right {p l : List Char} (r : List Char)
    (h : occurs_in p l = true) : occurs_in p (l ++ r) = true := by
  induction l with
  | nil =>
    cases p with
    | nil => exact occurs_in_of_starts rfl
    | cons a p => simp [occurs_in, starts_with_l] at h
  | cons b l ih =>
    simp [occurs_in] at h
    rcases h with h | h
    · exact occurs_in_of_starts (starts_with_l_mono r h)
    · simp [occurs_in, ih h]

theorem string_data_append (s t : String) : (s ++ t).data = s.data ++ t.data := rfl

theorem str_contains_left (a b : String) : str_contains (a ++ b) a = true := by
  simp only [str_contains, string_data_append]
  exact occurs_in_of_starts (starts_with_l_self_append _ _)

theorem str_contains_mid (a p b : String) : str_contains (a ++ p ++ b) p = true := by
  simp only [str_contains, string_data_append, List.append_assoc]
  exact occurs_in_append_left a.data
    (occurs_in_of_starts (starts_with_l_self_append _ _))

theorem str_contains_append_of_left {a : String} (b : String) {p : String}
    (h : str_contains a p = true) : str_contains (a ++ b) p = true := by
  simp only [str_contains, string_data_append]
  exact occurs_in_append_right b.data h

theorem str_ends_with_right (a b : String) : str_ends_with (a ++ b) b = true := by
  simp only [str_ends_with, string_data_append, List.reverse_append]
  exact starts_with_l_self_append _ _

/-! ## A small JSON-value model (for the jobs endpoint of `client.py`) -/

/-- A JSON value as far as `RenderClient.get_jobs` inspects it: a Python
`dict` (association list), a string, or anything non-dict collapsed to
`null`/`str`. -/
inductive Json where
  | obj : List (String × Json) → Json
  | str : String → Json
  | null : Json

/-- Python `d[key]` / `key in d` on a dict: first matching key. -/
def jlookup : List (String × Json) → String → Option Json
  | [], _ => none
  | (k, v) :: rest, key => if k = key then some v else jlookup rest key

/-- The list comprehension `[item["job"] for item in data]` in
`RenderClient.get_jobs`: unwraps every element, raising `KeyError` /
`TypeError` (modelled as `Except.error`) at the first element that is not a
dict containing the key `"job"`. -/
def unwrap_all : List Json → Except String (List Json)
  | [] => .ok []
  | item :: rest =>
    match item with
    | .obj fields =>
      match jlookup fields "job" with
      | some j =>
        match unwrap_all rest with
        | .ok js => .ok (j :: js)
        | .error e => .error e
      | none => .error "KeyError: job"
    | _ => .error "TypeError: not a dict"

/-- The response post-processing of `RenderClient.get_jobs` (client.py):
`jobs = [item["job"] for item in data] if data and isinstance(data[0], dict)
and "job" in data[0] else data`. -/
def get_jobs_unwrap (data : List Json) : Except String (List Json) :=
  match data with
  | [] => .ok []
  | first :: _ =>
    match first with
    | .obj fields =>
      if (jlookup fields "job").isSome then unwrap_all data else .ok data
    | _ => .ok data

/-- The envelope shape `{"job": {...}}`. -/
def wrap_job (j : Json) : Json := .obj [("job", j)]

/-- A flat job object: a dict that does not itself carry a `"job"` key. -/
def is_job_object : Json → Bool
  | .obj fields => (jlookup fields "job").isNone
  | _ => false

theorem unwrap_all_map_wrap (l : List Json) : unwrap_all (l.map wrap_job) = .ok l := by
  induction l with
  | nil => rfl
  | cons j rest ih => simp [unwrap_all, wrap_job, jlookup, ih]

/-! ## Status colors (`get_status_color` in cli.py) -/

/-- Python `str.lower` on a single character (ASCII range; every status
string the mapping distinguishes is ASCII). -/
def py_lower_char (c : Char) : Char :=
  if 65 ≤ c.toNat ∧ c.toNat ≤ 90 then Char.ofNat (c.toNat + 32) else c

/-- Python `str.lower` (ASCII model). -/
def py_lower (s : String) : String := ⟨s.data.map py_lower_char⟩

/-- `get_status_color` from cli.py: lowercases the status and looks it up in
the three tuples of the source. -/
def get_status_color (status : String) : String :=
  let status_lower := py_lower status
  if ["live", "succeeded", "success"].contains status_lower then "green"
  else if ["building", "deploying", "running"].contains status_lower then "yellow"
  else if ["build_failed", "failed", "canceled"].contains status_lower then "red"
  else "white"

/-- Modelled from the spec: the `statusColor` mapping table, written from the
spec's words ("{live, succeeded, success}→green; {building, deploying,
running}→yellow; {build_failed, failed, canceled}→red; any other
string→white", applied to the lowercased status). -/
def spec_status_color (status : String) : String :=
  let l := py_lower status
  if l = "live" ∨ l = "succeeded" ∨ l = "success" then "green"
  else if l = "building" ∨ l = "deploying" ∨ l = "running" then "yellow"
  else if l = "build_failed" ∨ l = "failed" ∨ l = "canceled" then "red"
  else "white"

/-! ## Timestamps (`format_timestamp` in cli.py)

`format_timestamp` calls `datetime.fromisoformat(ts.replace("Z", "+00:00"))`,
converts to the local timezone with `astimezone()` and formats with
`strftime(f"%Y-%m-%d %H:%M:%S {tz_name}")`.  The stdlib pieces are modelled
below: a parser for the canonical ISO-8601 forms (`YYYY-MM-DD`, optionally
`[T or space]HH:MM:SS[.f+][±HH:MM]`; CPython's parser accepts a few more
spellings), and Hinnant-style civil-calendar arithmetic for the timezone
conversion.  The local timezone of the host is an explicit parameter
(`LocalEnv`). -/

/-- Decimal digit value of a character, if it is a digit. -/
def digit? (c : Char) : Option Nat :=
  if 48 ≤ c.toNat ∧ c.toNat ≤ 57 then some (c.toNat - 48) else none

/-- Parse exactly two decimal digits. -/
def parse2d : List Char → Option (Nat × List Char)
  | c1 :: c2 :: rest =>
    match digit? c1, digit? c2 with
    | some a, some b => some (a * 10 + b, rest)
    | _, _ => none
  | _ => none

/-- Parse exactly four decimal digits. -/
def parse4d : List Char → Option (Nat × List Char)
  | c1 :: c2 :: c3 :: c4 :: rest =>
    match digit? c1, digit? c2, digit? c3, digit? c4 with
    | some a, some b, some c, some d => some (a * 1000 + b * 100 + c * 10 + d, rest)
    | _, _, _, _ => none
  | _ => none

/-- Consume one expected character. -/
def expect_char (c : Char) : List Char → Option (List Char)
  | x :: rest => if x = c then some rest else none
  | [] => none

/-- Consume a maximal run of digits, returning how many were consumed. -/
def take_digits : List Char → Nat × List Char
  | [] => (0, [])
  | c :: rest =>
    if (digit? c).isSome then
      let r := take_digits rest
      (r.1 + 1, r.2)
    else (0, c :: rest)

/-- Consume an optional fractional-seconds part `.d+` (the fraction's value is
discarded by the formatting, as in the source, which prints no `%f`). -/
def parse_frac : List Char → Option (List Char)
  | '.' :: rest =>
    let t := take_digits rest
    if t.1 = 0 then none else some t.2
  | cs => some cs

/-- Parse an optional trailing UTC offset `±HH:MM`; the input must end there. -/
def parse_offset : List Char → Option (Option Int)
  | [] => some none
  | sgn :: rest =>
    if sgn = '+' ∨ sgn = '-' then
      match parse2d rest with
      | some (oh, r2) =>
        match expect_char ':' r2 with
        | some r3 =>
          match parse2d r3 with
          | some (om, r4) =>
            if r4 = [] ∧ oh ≤ 23 ∧ om ≤ 59 then
              some (some (if sgn = '-' then -((oh * 60 + om : Nat) : Int)
                          else ((oh * 60 + om : Nat) : Int)))
            else none
          | none => none
        | none => none
      | none => none
    else none

/-- Parse `HH:MM:SS[.f+][±HH:MM]` to the end of the input. -/
def parse_time (cs : List Char) : Option (Nat × Nat × Nat × Option Int) :=
  match parse2d cs with
  | none => none
  | some (hh, r1) =>
    match expect_char ':' r1 with
    | none => none
    | some r2 =>
      match parse2d r2 with
      | none => none
      | some (mi, r3) =>
        match expect_char ':' r3 with
        | none => none
        | some r4 =>
          match parse2d r4 with
          | none => none
          | some (ss, r5) =>
            match parse_frac r5 with
            | none => none
            | some r6 =>
              match parse_offset r6 with
              | none => none
              | some off => some (hh, mi, ss, off)

/-- The result of `datetime.fromisoformat`: a (possibly timezone-aware)
wall-clock datetime.  `offsetMinutes = none` models a naive datetime. -/
structure PyDateTime where
  year : Nat
  month : Nat
  day : Nat
  hour : Nat
  minute : Nat
  second : Nat
  offsetMinutes : Option Int
deriving DecidableEq

/-- Gregorian leap year. -/
def is_leap (y : Nat) : Bool :=
  y % 4 == 0 && (y % 100 != 0 || y % 400 == 0)

/-- Length of a month. -/
def days_in_month (y m : Nat) : Nat :=
  if m = 2 then (if is_leap y then 29 else 28)
  else if m = 4 ∨ m = 6 ∨ m = 9 ∨ m = 11 then 30
  else 31

/-- Model of `datetime.fromisoformat` on the canonical ISO-8601 forms,
including the field validation the stdlib performs (a `ValueError` is
modelled as `none`). -/
def py_fromisoformat (s : String) : Option PyDateTime :=
  match parse4d s.data with
  | none => none
  | some (y, r1) =>
    match expect_char '-' r1 with
    | none => none
    | some r2 =>
      match parse2d r2 with
      | none => none
      | some (m, r3) =>
        match expect_char '-' r3 with
        | none => none
        | some r4 =>
          match parse2d r4 with
          | none => none
          | some (d, r5) =>
            if 1 ≤ y ∧ 1 ≤ m ∧ m ≤ 12 ∧ 1 ≤ d ∧ d ≤ days_in_month y m then
              match r5 with
              | [] => some ⟨y, m, d, 0, 0, 0, none⟩
              | sep :: r6 =>
                if sep = 'T' ∨ sep = ' ' then
                  match parse_time r6 with
                  | some (hh, mi, ss, off) =>
                    if hh ≤ 23 ∧ mi ≤ 59 ∧ ss ≤ 59 then
                      some ⟨y, m, d, hh, mi, ss, off⟩
                    else none
                  | none => none
                else none
            else none

/-- Python `ts.replace("Z", "+00:00")` (every occurrence). -/
def replace_Z_aux : List Char → List Char
  | [] => []
  | c :: cs =>
    if c = 'Z' then '+' :: '0' :: '0' :: ':' :: '0' :: '0' :: replace_Z_aux cs
    else c :: replace_Z_aux cs

/-- Python `ts.replace("Z", "+00:00")`. -/
def replace_Z (s : String) : String := ⟨replace_Z_aux s.data⟩

/-- Days since 1970-01-01 of a civil date (Hinnant's `days_from_civil`). -/
def days_from_civil (y : Int) (m d : Nat) : Int :=
  let y2 : Int := if m ≤ 2 then y - 1 else y
  let era : Int := Int.fdiv y2 400
  let yoe : Int := y2 - era * 400
  let mp : Int := if m ≤ 2 then (m : Int) + 9 else (m : Int) - 3
  let doy : Int := (153 * mp + 2) / 5 + (d : Int) - 1
  let doe : Int := yoe * 365 + yoe / 4 - yoe / 100 + doy
  era * 146097 + doe - 719468

/-- Civil date of a number of days since 1970-01-01 (Hinnant's
`civil_from_days`). -/
def civil_from_days (z0 : Int) : Int × Nat × Nat :=
  let z : Int := z0 + 719468
  let era : Int := Int.fdiv z 146097
  let doe : Int := z - era * 146097
  let yoe : Int := (doe - doe / 1460 + doe / 36524 - doe / 146096) / 365
  let y : Int := yoe + era * 400
  let doy : Int := doe - (365 * yoe + yoe / 4 - yoe / 100)
  let mp : Int := (5 * doy + 2) / 153
  let d : Int := doy - (153 * mp + 2) / 5 + 1
  let m : Int := if mp < 10 then mp + 3 else mp - 9
  (if m ≤ 2 then y + 1 else y, m.toNat, d.toNat)

/-- The host's local timezone as `astimezone()`/`strftime("%Z")` observe it:
a UTC offset in minutes and a timezone abbreviation. -/
structure LocalEnv where
  offsetMinutes : Int
  tzName : String

/-- Model of `datetime.astimezone()`: an aware datetime is shifted from its
own offset to the local offset (over the unbounded proleptic calendar); a
naive datetime keeps its wall-clock fields and is merely tagged with the
local timezone. -/
def to_local_civil (localOffset : Int) (dt : PyDateTime) :
    Int × Nat × Nat × Nat × Nat × Nat :=
  match dt.offsetMinutes with
  | none => ((dt.year : Int), dt.month, dt.day, dt.hour, dt.minute, dt.second)
  | some off =>
    let days : Int := days_from_civil (dt.year : Int) dt.month dt.day
    let mins : Int := days * 1440 + (dt.hour : Int) * 60 + (dt.minute : Int) - off + localOffset
    let d2 : Int := Int.fdiv mins 1440
    let rem : Int := mins - d2 * 1440
    match civil_from_days d2 with
    | (y, m, d) => (y, m, d, (rem / 60).toNat, (Int.emod rem 60).toNat, dt.second)

/-- Whether the `astimezone()` conversion stays inside the year range CPython's
`datetime` supports (outside it, CPython raises `OverflowError`, which
`format_timestamp` does not catch). -/
def astimezone_in_range (localOffset : Int) (dt : PyDateTime) : Bool :=
  match to_local_civil localOffset dt with
  | (y, _, _, _, _, _) => decide (1 ≤ y ∧ y ≤ 9999)

/-- Two-digit zero padding (`%m`, `%d`, `%H`, `%M`, `%S`). -/
def pad2 (n : Nat) : String :=
  if n < 10 then "0" ++ toString n else toString n

/-- Four-digit zero padding (`%Y`). -/
def pad4 (y : Int) : String :=
  if 0 ≤ y ∧ y < 10 then "000" ++ toString y
  else if 0 ≤ y ∧ y < 100 then "00" ++ toString y
  else if 0 ≤ y ∧ y < 1000 then "0" ++ toString y
  else toString y

/-- `%Y-%m-%d`. -/
def format_date (y : Int) (m d : Nat) : String :=
  pad4 y ++ "-" ++ pad2 m ++ "-" ++ pad2 d

/-- The local calendar date a datetime lands on, formatted as `%Y-%m-%d`. -/
def local_date_str (env : LocalEnv) (dt : PyDateTime) : String :=
  match to_local_civil env.offsetMinutes dt with
  | (y, m, d, _, _, _) => format_date y m d

/-- `local_dt.strftime(f"%Y-%m-%d %H:%M:%S {tz_name}")`. -/
def format_local (env : LocalEnv) (dt : PyDateTime) : String :=
  match to_local_civil env.offsetMinutes dt with
  | (y, m, d, hh, mi, ss) =>
    format_date y m d ++ " " ++ pad2 hh ++ ":" ++ pad2 mi ++ ":" ++ pad2 ss ++ " " ++ env.tzName

/-- `format_timestamp` from cli.py: `"N/A"` for a falsy input, the formatted
local time for a parsable timestamp, and the input itself when
`fromisoformat` raises `ValueError`. -/
def format_timestamp (env : LocalEnv) (ts : Option String) : String :=
  match ts with
  | none => "N/A"
  | some s =>
    if s = "" then "N/A"
    else
      match py_fromisoformat (replace_Z s) with
      | some dt => format_local env dt
      | none => s

/-- The visible text of a Rich-markup cell: everything outside `[...]` tags. -/
def strip_markup_aux : List Char → Bool → List Char
  | [], _ => []
  | c :: cs, inside =>
    if inside then
      (if c = ']' then strip_markup_aux cs false else strip_markup_aux cs true)
    else if c = '[' then strip_markup_aux cs true
    else c :: strip_markup_aux cs false

/-- The visible text of a Rich-markup cell. -/
def strip_markup (s : String) : String := ⟨strip_markup_aux s.data false⟩

/-! ## Data model and client (client.py) -/

/-- `serviceDetails` of a cron service, as cli.py reads it (`dict.get`). -/
structure ServiceDetails where
  schedule : Option String
  lastSuccessfulRunAt : Option String
deriving DecidableEq

/-- A service object as cli.py reads it (`dict.get` on id/name/type/updatedAt
and the nested serviceDetails). -/
structure Service where
  id : Option String
  name : Option String
  type' : Option String
  updatedAt : Option String
  serviceDetails : Option ServiceDetails
deriving DecidableEq

/-- A deploy object as cli.py reads it. -/
structure Deploy where
  status : Option String
  createdAt : Option String
deriving DecidableEq

/-- The observable behaviour of a `RenderClient` (client.py): for each
endpoint, the decoded result the call would return, or the exception it would
raise (`httpx` errors, and `KeyError` from envelope unwrapping, surface as
`Except.error`). -/
structure RenderClient where
  get_services : Except String (List Service)
  get_deploys : String → Nat → Except String (List Deploy)
  get_jobs : String → Except String (List Json)

/-! ## Tables (the Rich renderables built by cli.py) -/

/-- A Rich `Table` as cli.py builds it: title, header flag, columns added by
`add_column`, and rows added by `add_row` in order. -/
structure Table where
  title : Option String := none
  show_header : Bool := true
  columns : List String := []
  rows : List (List String) := []
deriving DecidableEq

/-- The return value of `build_services_output`:
`Table | tuple[Table, Table]`. -/
inductive ServicesOutput where
  | one : Table → ServicesOutput
  | two : Table → Table → ServicesOutput
deriving DecidableEq

/-- The error table built when `get_services` raises. -/
def error_services_table (e : String) : Table :=
  { show_header := false,
    rows := [["[red]Error fetching services: " ++ e ++ "[/red]"]] }

/-- The placeholder table built when `get_services` returns no services. -/
def no_services_table : Table :=
  { show_header := false,
    rows := [["[yellow]No services found[/yellow]"]] }

/-- One row of the main services table (the body of the
`for service in services:` loop in `build_services_output`): name, type,
latest deploy status, latest deploy time, updatedAt.  A deploy-fetch failure
is caught and shown as `[red]Error[/red]` in the status cell. -/
def service_row (env : LocalEnv) (client : RenderClient) (service : Service) : List String :=
  let service_type := service.type'.getD "N/A"
  let name := service.name.getD "N/A"
  let service_id := service.id.getD ""
  let cells :=
    if service_type ≠ "cron_job" then
      match client.get_deploys service_id 1 with
      | .ok deploys =>
        match deploys with
        | latest :: _ =>
          let status := latest.status.getD "N/A"
          let color := get_status_color status
          ("[bold " ++ color ++ "]" ++ status ++ "[/bold " ++ color ++ "]",
            format_timestamp env latest.createdAt)
        | [] => ("N/A", "N/A")
      | .error _ => ("[red]Error[/red]", "N/A")
    else ("N/A", "N/A")
  let updated_at := format_timestamp env service.updatedAt
  [name, service_type, cells.1, cells.2, updated_at]

/-- `service.get("serviceDetails", {}).get("lastSuccessfulRunAt")`. -/
def cron_last_run (service : Service) : Option String :=
  service.serviceDetails.bind ServiceDetails.lastSuccessfulRunAt

/-- Python truthiness of an optional string (`None` and `""` are falsy). -/
def truthy_opt : Option String → Bool
  | some t => t != ""
  | none => false

/-- One row of the cron table (the body of the
`for service in cron_services:` loop): name, schedule, last run, synthesized
status.  The jobs endpoint is not consulted. -/
def cron_row (env : LocalEnv) (service : Service) : List String :=
  let name := service.name.getD "N/A"
  let schedule := (service.serviceDetails.bind ServiceDetails.schedule).getD "N/A"
  let last_run_ts := cron_last_run service
  let last_run :=
    match last_run_ts with
    | some t => if t != "" then format_timestamp env (some t) else "N/A"
    | none => "N/A"
  let job_status :=
    match last_run_ts with
    | some t => if t != "" then "[bold green]succeeded[/bold green]" else "N/A"
    | none => "N/A"
  [name, schedule, last_run, job_status]

/-- The main services table. -/
def main_table (env : LocalEnv) (client : RenderClient) (services : List Service) : Table :=
  { title := some "Render Services",
    show_header := true,
    columns := ["Name", "Type", "Status", "Latest Deploy", "Updated"],
    rows := services.map (service_row env client) }

/-- The cron table, built from the cron services only. -/
def cron_jobs_table (env : LocalEnv) (cron_services : List Service) : Table :=
  { title := some "Cron Jobs",
    show_header := true,
    columns := ["Name", "Schedule", "Last Run", "Status"],
    rows := cron_services.map (cron_row env) }

/-- `build_services_output` from cli.py. -/
def build_services_output (env : LocalEnv) (client : RenderClient) : ServicesOutput :=
  match client.get_services with
  | .error e => .one (error_services_table e)
  | .ok services =>
    if services.isEmpty then .one no_services_table
    else
      let table := main_table env client services
      let cron_services := services.filter (fun s => s.type' == some "cron_job")
      if cron_services.isEmpty then .one table
      else .two table (cron_jobs_table env cron_services)

/-- The rows of the first (main) table of the output. -/
def main_rows : ServicesOutput → List (List String)
  | .one t => t.rows
  | .two t _ => t.rows

/-- The rows of the cron table, `[]` when no cron table was returned. -/
def cron_rows : ServicesOutput → List (List String)
  | .one _ => []
  | .two _ ct => ct.rows

/-! ## Concrete fixtures used by witnesses and counterexamples -/

/-- A host environment at UTC. -/
def env_utc : LocalEnv := ⟨0, "UTC"⟩

/-- A host environment two hours ahead of UTC. -/
def env_plus2 : LocalEnv := ⟨120, "UTC+02:00"⟩

/-- A web service fixture. -/
def svc_web : Service :=
  { id := some "srv-1", name := some "web-1", type' := some "web_service",
    updatedAt := none, serviceDetails := none }

/-- A cron service fixture. -/
def svc_cron : Service :=
  { id := some "srv-2", name := some "cron-1", type' := some "cron_job",
    updatedAt := none,
    serviceDetails := some { schedule := some "0 0 * * *",
                             lastSuccessfulRunAt := some "2025-11-25T12:00:00Z" } }

/-- A client returning one web service and one cron service, with a live
deploy for every deploy lookup. -/
def client_cex : RenderClient :=
  { get_services := .ok [svc_web, svc_cron],
    get_deploys := fun _ _ => .ok [{ status := some "live", createdAt := none }],
    get_jobs := fun _ => .ok [] }

/-! ## Claim theorems -/

/-- Claim C5: `get_status_color` is case-insensitive — its result depends only
on the lowercased status string — and implements exactly the spec's mapping
table ({live, succeeded, success}→green; {building, deploying,
running}→yellow; {build_failed, failed, canceled}→red; otherwise white). -/
theorem c5_status_color :
    (∀ s t : String, py_lower s = py_lower t → get_status_color s = get_status_color t)
    ∧ (∀ s : String, get_status_color s = spec_status_color s) := by
  constructor
  · intro s t h
    simp only [get_status_color, h]
  · intro s
    simp only [get_status_color, spec_status_color]
    by_cases h1 : py_lower s = "live" ∨ py_lower s = "succeeded" ∨ py_lower s = "success"
    · rw [if_pos (by simpa using h1), if_pos h1]
    · rw [if_neg (by simpa using h1), if_neg h1]
      by_cases h2 : py_lower s = "building" ∨ py_lower s = "deploying" ∨ py_lower s = "running"
      · rw [if_pos (by simpa using h2), if_pos h2]
      · rw [if_neg (by simpa using h2), if_neg h2]
        by_cases h3 : py_lower s = "build_failed" ∨ py_lower s = "failed" ∨ py_lower s = "canceled"
        · rw [if_pos (by simpa using h3), if_pos h3]
        · rw [if_neg (by simpa using h3), if_neg h3]

/-- Witness for C5 at concrete inputs: `"LIVE"` and `"live"` get the same
color, and the code agrees with the spec table on `"BUILD_FAILED"`. -/
theorem c5_witness :
    get_status_color "LIVE" = get_status_color "live"
    ∧ get_status_color "BUILD_FAILED" = spec_status_color "BUILD_FAILED" :=
  ⟨c5_status_color.1 "LIVE" "live" (by decide), c5_status_color.2 "BUILD_FAILED"⟩

/-- Claim C2: for a successful jobs response, `get_jobs` yields the same
canonical job list whether the response is envelope-wrapped (every element
`{"job": {...}}`) or a flat list of job objects; the wrapped form is
unwrapped element-wise and the flat form is passed through unchanged (the
case being decided by the first element's keys). -/
theorem c2_jobs_unwrap (js : List Json) (h : ∀ j ∈ js, is_job_object j = true) :
    get_jobs_unwrap (js.map wrap_job) = .ok js ∧ get_jobs_unwrap js = .ok js := by
  constructor
  · cases js with
    | nil => rfl
    | cons j rest =>
      simp only [List.map_cons, get_jobs_unwrap, wrap_job, jlookup, if_pos rfl,
        Option.isSome_some, if_true]
      exact unwrap_all_map_wrap (j :: rest)
  · cases js with
    | nil => rfl
    | cons j rest =>
      have hj := h j (List.mem_cons_self j rest)
      cases j with
      | obj fields =>
        simp only [is_job_object, Option.isNone_iff_eq_none] at hj
        simp [get_jobs_unwrap, hj]
      | str s => simp [is_job_object] at hj
      | null => simp [is_job_object] at hj

/-- A concrete flat job object list. -/
def jobs_flat : List Json := [.obj [("id", .str "job-1"), ("status", .str "succeeded")]]

/-- Witness for C2: both wire shapes of a concrete job list normalize to the
same canonical list. -/
theorem c2_witness :
    get_jobs_unwrap (jobs_flat.map wrap_job) = .ok jobs_flat
    ∧ get_jobs_unwrap jobs_flat = .ok jobs_flat :=
  c2_jobs_unwrap jobs_flat (by decide)

/-- Claim C7: when the initial `get_services` call fails, the failure is
caught and a single table is returned whose only row names the failure
(mentioning both the fixed error text and the exception's message), instead
of the exception propagating. -/
theorem c7_services_error (env : LocalEnv) (client : RenderClient) (e : String)
    (h : client.get_services = .error e) :
    build_services_output env client = .one (error_services_table e)
    ∧ (error_services_table e).rows.length = 1
    ∧ str_contains (((error_services_table e).rows.headD []).headD "") "Error fetching services" = true
    ∧ str_contains (((error_services_table e).rows.headD []).headD "") e = true := by
  refine ⟨?_, rfl, ?_, ?_⟩
  · simp [build_services_output, h]
  · show str_contains ("[red]Error fetching services: " ++ e ++ "[/red]") "Error fetching services" = true
    have h1 : ("[red]Error fetching services: " : String) =
        "[red]" ++ "Error fetching services" ++ ": " := rfl
    rw [h1]
    exact str_contains_append_of_left _
      (str_contains_append_of_left _ (str_contains_mid "[red]" "Error fetching services" ": "))
  · exact str_contains_mid "[red]Error fetching services: " e "[/red]"

/-- A client whose services listing fails. -/
def client_err : RenderClient :=
  { get_services := .error "HTTP 500",
    get_deploys := fun _ _ => .ok [],
    get_jobs := fun _ => .ok [] }

/-- Witness for C7 at a concrete failing client. -/
theorem c7_witness :
    build_services_output env_utc client_err = .one (error_services_table "HTTP 500") :=
  (c7_services_error env_utc client_err "HTTP 500" rfl).1

/-- Claim C8: when `get_services` returns an empty list, the builder returns
the single placeholder table carrying the "No services" indicator (and, being
total, does not raise). -/
theorem c8_no_services (env : LocalEnv) (client : RenderClient)
    (h : client.get_services = .ok []) :
    build_services_output env client = .one no_services_table
    ∧ str_contains ((no_services_table.rows.headD []).headD "") "No services" = true := by
  refine ⟨?_, by decide⟩
  simp [build_services_output, h]

/-- A client with no services. -/
def client_empty : RenderClient :=
  { get_services := .ok [],
    get_deploys := fun _ _ => .ok [],
    get_jobs := fun _ => .ok [] }

/-- Witness for C8 at a concrete empty client. -/
theorem c8_witness : build_services_output env_utc client_empty = .one no_services_table :=
  (c8_no_services env_utc client_empty rfl).1

/-- Claim C9: the status cell of a cron-table row is the (markup-rendered)
text "succeeded" exactly when the service's `serviceDetails` carry a truthy
`lastSuccessfulRunAt` timestamp and "N/A" otherwise; and the synthesis never
consults the jobs endpoint — substituting any behaviour for `get_jobs`
leaves the whole table construction unchanged. -/
theorem c9_cron_status (env : LocalEnv) (s : Service) (c : RenderClient)
    (f g : String → Except String (List Json)) :
    (cron_row env s).get? 3 =
      some (if truthy_opt (cron_last_run s) then "[bold green]succeeded[/bold green]" else "N/A")
    ∧ strip_markup (((cron_row env s).get? 3).getD "") =
      (if truthy_opt (cron_last_run s) then "succeeded" else "N/A")
    ∧ build_services_output env { c with get_jobs := f } =
      build_services_output env { c with get_jobs := g } := by
  refine ⟨?_, ?_, rfl⟩
  · cases h : cron_last_run s with
    | none => simp [cron_row, truthy_opt, h]
    | some t =>
      simp only [cron_row, truthy_opt, h]
      by_cases ht : t = ""
      · simp [ht]
      · simp [ht]
  · cases h : cron_last_run s with
    | none => simp [cron_row, truthy_opt, h]; decide
    | some t =>
      simp only [cron_row, truthy_opt, h]
      by_cases ht : t = ""
      · simp [ht]; decide
      · simp [ht]; decide

/-- Claim C10: for a non-empty services list the main table has exactly one
row per service, in order; a cron service's status and latest-deploy cells in
the main table are "N/A"; and the cron services additionally appear, in
order, as the rows of the separate cron table. -/
theorem c10_rows (env : LocalEnv) (client : RenderClient) (services : List Service)
    (h : client.get_services = .ok services) (hne : services ≠ []) :
    main_rows (build_services_output env client) = services.map (service_row env client)
    ∧ (∀ s ∈ services, s.type' = some "cron_job" →
        (service_row env client s).get? 2 = some "N/A"
        ∧ (service_row env client s).get? 3 = some "N/A")
    ∧ cron_rows (build_services_output env client) =
      (services.filter (fun s => s.type' == some "cron_job")).map (cron_row env) := by
  have hie : services.isEmpty = false := by
    cases services with
    | nil => exact absurd rfl hne
    | cons a l => rfl
  refine ⟨?_, ?_, ?_⟩
  · simp only [build_services_output, h, hie, Bool.false_eq_true, if_false]
    by_cases hcs : (services.filter (fun s => s.type' == some "cron_job")).isEmpty
    · simp [hcs, main_rows, main_table]
    · simp [hcs, main_rows, main_table]
  · intro s _ hcron
    simp [service_row, hcron]
  · simp only [build_services_output, h, hie, Bool.false_eq_true, if_false]
    by_cases hcs : (services.filter (fun s => s.type' == some "cron_job")).isEmpty
    · have : services.filter (fun s => s.type' == some "cron_job") = [] := by
        simpa [List.isEmpty_iff] using hcs
      simp [hcs, cron_rows, this]
    · simp [hcs, cron_rows, cron_jobs_table]

/-- Witness for C10 at a concrete client with a web and a cron service. -/
theorem c10_witness :
    main_rows (build_services_output env_utc client_cex) =
      [svc_web, svc_cron].map (service_row env_utc client_cex)
    ∧ cron_rows (build_services_output env_utc client_cex) =
      ([svc_web, svc_cron].filter (fun s => s.type' == some "cron_job")).map (cron_row env_utc) :=
  ⟨(c10_rows env_utc client_cex [svc_web, svc_cron] rfl (List.cons_ne_nil _ _)).1,
   (c10_rows env_utc client_cex [svc_web, svc_cron] rfl (List.cons_ne_nil _ _)).2.2⟩

/-- The bold status markup built for a successfully fetched deploy is never
the error indicator cell. -/
theorem bold_cell_ne_error (color status : String) :
    ("[bold " ++ color ++ "]" ++ status ++ "[/bold " ++ color ++ "]") ≠ "[red]Error[/red]" := by
  intro heq
  have hd := congrArg String.data heq
  simp only [string_data_append] at hd
  simp at hd

/-- Claim C4: a deploy-fetch failure is confined to its own row — the main
table still has one row per service; a non-cron row whose deploy lookup
fails gets `[red]Error[/red]` in its status cell while keeping its name
cell; and a row whose deploy lookup succeeds never shows that error
indicator. -/
theorem c4_deploy_failure (env : LocalEnv) (client : RenderClient) (services : List Service)
    (h : client.get_services = .ok services) (hne : services ≠ []) :
    main_rows (build_services_output env client) = services.map (service_row env client)
    ∧ (∀ s ∈ services, s.type' ≠ some "cron_job" →
        ∀ e, client.get_deploys (s.id.getD "") 1 = .error e →
          (service_row env client s).get? 0 = some (s.name.getD "N/A")
          ∧ (service_row env client s).get? 2 = some "[red]Error[/red]")
    ∧ (∀ s ∈ services, ∀ ds, client.get_deploys (s.id.getD "") 1 = .ok ds →
        (service_row env client s).get? 2 ≠ some "[red]Error[/red]") := by
  have hie : services.isEmpty = false := by
    cases services with
    | nil => exact absurd rfl hne
    | cons a l => rfl
  refine ⟨?_, ?_, ?_⟩
  · simp only [build_services_output, h, hie, Bool.false_eq_true, if_false]
    by_cases hcs : (services.filter (fun s => s.type' == some "cron_job")).isEmpty
    · simp [hcs, main_rows, main_table]
    · simp [hcs, main_rows, main_table]
  · intro s _ htype e hdep
    have hst : s.type'.getD "N/A" ≠ "cron_job" := by
      cases hx : s.type' with
      | none => simp
      | some v =>
        simp only [Option.getD_some]
        intro hv
        exact htype (by rw [hx, hv])
    simp [service_row, hst, hdep]
  · intro s _ ds hdep
    by_cases hst : s.type'.getD "N/A" ≠ "cron_job"
    · cases ds with
      | nil => simp [service_row, hst, hdep]
      | cons latest rest =>
        have hne := bold_cell_ne_error (get_status_color (latest.status.getD "N/A"))
          (latest.status.getD "N/A")
        simp [service_row, hst, hdep, hne]
    · have hst2 : s.type'.getD "N/A" = "cron_job" := not_not.mp hst
      simp [service_row, hst2]

/-- A web service fixture whose deploy lookup will fail. -/
def svc_bad : Service :=
  { id := some "srv-b", name := some "web-2", type' := some "web_service",
    updatedAt := none, serviceDetails := none }

/-- A client whose deploy lookup fails for service `srv-b` only. -/
def client_partial : RenderClient :=
  { get_services := .ok [svc_web, svc_bad],
    get_deploys := fun sid _ =>
      if sid == "srv-b" then .error "boom"
      else .ok [{ status := some "live", createdAt := none }],
    get_jobs := fun _ => .ok [] }

/-- Witness for C4 at a concrete client where exactly one of two deploy
lookups fails. -/
theorem c4_witness :
    main_rows (build_services_output env_utc client_partial) =
      [svc_web, svc_bad].map (service_row env_utc client_partial)
    ∧ (service_row env_utc client_partial svc_bad).get? 2 = some "[red]Error[/red]"
    ∧ (service_row env_utc client_partial svc_web).get? 2 ≠ some "[red]Error[/red]" :=
  ⟨(c4_deploy_failure env_utc client_partial [svc_web, svc_bad] rfl (List.cons_ne_nil _ _)).1,
   ((c4_deploy_failure env_utc client_partial [svc_web, svc_bad] rfl (List.cons_ne_nil _ _)).2.1
      svc_bad (by simp) (by decide) "boom" rfl).2,
   (c4_deploy_failure env_utc client_partial [svc_web, svc_bad] rfl (List.cons_ne_nil _ _)).2.2
      svc_web (by simp) [{ status := some "live", createdAt := none }] rfl⟩

/-- Claim C1, counterexample to "the cron_job service does not appear as a
row of the main table": with one web service and one cron service, the main
table has two rows and the second one is exactly the cron service's row. -/
theorem c1_counterexample :
    main_rows (build_services_output env_utc client_cex) =
      [["web-1", "web_service", "[bold green]live[/bold green]", "N/A", "N/A"],
       ["cron-1", "cron_job", "N/A", "N/A", "N/A"]]
    ∧ (main_rows (build_services_output env_utc client_cex)).contains
        (service_row env_utc client_cex svc_cron) = true := by
  constructor <;> decide

/-- Claim C1 (amended): with one web service and one cron service the builder
returns two distinct renderable tables (main table and cron table); the cron
service appears in the cron table and also as a row of the main table, with
"N/A" in its status and latest-deploy cells. -/
theorem c1_two_tables (env : LocalEnv) (client : RenderClient) (web cron : Service)
    (h : client.get_services = .ok [web, cron])
    (hw : web.type' = some "web_service") (hc : cron.type' = some "cron_job") :
    ∃ t ct, build_services_output env client = .two t ct
      ∧ t.title = some "Render Services" ∧ ct.title = some "Cron Jobs"
      ∧ t.rows = [service_row env client web, service_row env client cron]
      ∧ ct.rows = [cron_row env cron]
      ∧ (service_row env client cron).get? 0 = some (cron.name.getD "N/A")
      ∧ (service_row env client cron).get? 2 = some "N/A"
      ∧ (service_row env client cron).get? 3 = some "N/A" := by
  have hfw : (web.type' == some "cron_job") = false := by rw [hw]; decide
  have hfc : (cron.type' == some "cron_job") = true := by rw [hc]; decide
  refine ⟨main_table env client [web, cron], cron_jobs_table env [cron],
    ?_, rfl, rfl, rfl, rfl, ?_, ?_, ?_⟩
  · simp [build_services_output, h, List.filter_cons, hfw, hfc]
  · simp [service_row, hc]
  · simp [service_row, hc]
  · simp [service_row, hc]

/-- Witness for the amended C1 at a concrete client. -/
theorem c1_witness :
    ∃ t ct, build_services_output env_utc client_cex = .two t ct
      ∧ t.title = some "Render Services" ∧ ct.title = some "Cron Jobs"
      ∧ t.rows = [service_row env_utc client_cex svc_web, service_row env_utc client_cex svc_cron]
      ∧ ct.rows = [cron_row env_utc svc_cron]
      ∧ (service_row env_utc client_cex svc_cron).get? 0 = some (svc_cron.name.getD "N/A")
      ∧ (service_row env_utc client_cex svc_cron).get? 2 = some "N/A"
      ∧ (service_row env_utc client_cex svc_cron).get? 3 = some "N/A" :=
  c1_two_tables env_utc client_cex svc_web svc_cron rfl rfl rfl

/-- Claim C3, counterexample to "the output contains the calendar date of the
original input": the valid input `2025-11-25T23:30:00Z`, rendered on a host
two hours ahead of UTC, formats to `2025-11-26 01:30:00 UTC+02:00`, which
does not contain the original date `2025-11-25` — `astimezone` moves the
wall-clock date across midnight. -/
theorem c3_counterexample :
    (py_fromisoformat (replace_Z "2025-11-25T23:30:00Z")).isSome = true
    ∧ format_timestamp env_plus2 (some "2025-11-25T23:30:00Z") = "2025-11-26 01:30:00 UTC+02:00"
    ∧ str_contains (format_timestamp env_plus2 (some "2025-11-25T23:30:00Z")) "2025-11-25" = false :=
  ⟨by decide, by decide, by decide⟩

/-- Claim C3 (amended): for every input that `fromisoformat` parses and whose
timezone conversion stays inside the year range CPython's `datetime`
supports (outside it `astimezone()` raises `OverflowError` instead of
returning a string — see `c6_never_raises_evidence`), the output of
`format_timestamp` contains the calendar date of the timestamp as converted
to the local timezone (which can differ from the input's own calendar date),
and — whenever the host reports a non-empty timezone abbreviation — ends
with that abbreviation. -/
theorem c3_local_date (env : LocalEnv) (s : String) (dt : PyDateTime)
    (hp : py_fromisoformat (replace_Z s) = some dt)
    (_hr : astimezone_in_range env.offsetMinutes dt = true) :
    str_contains (format_timestamp env (some s)) (local_date_str env dt) = true
    ∧ (env.tzName ≠ "" → str_ends_with (format_timestamp env (some s)) env.tzName = true) := by
  have hs : s ≠ "" := by
    intro h
    subst h
    simp [replace_Z, replace_Z_aux, py_fromisoformat, parse4d] at hp
  have hfmt : format_timestamp env (some s) = format_local env dt := by
    simp [format_timestamp, hs, hp]
  rw [hfmt]
  constructor
  · rcases hciv : to_local_civil env.offsetMinutes dt with ⟨y, m, d, hh, mi, ss⟩
    simp only [format_local, local_date_str, hciv]
    exact str_contains_append_of_left _ (str_contains_append_of_left _
      (str_contains_append_of_left _ (str_contains_append_of_left _
        (str_contains_append_of_left _ (str_contains_append_of_left _
          (str_contains_append_of_left _ (str_contains_left _ _)))))))
  · intro _
    rcases hciv : to_local_civil env.offsetMinutes dt with ⟨y, m, d, hh, mi, ss⟩
    simp only [format_local, hciv]
    exact str_ends_with_right _ _

/-- Witness for the amended C3 at a concrete valid timestamp on a UTC host,
whose conversion stays inside the supported year range. -/
theorem c3_witness :
    str_contains (format_timestamp env_utc (some "2025-11-25T12:34:56Z"))
      (local_date_str env_utc ⟨2025, 11, 25, 12, 34, 56, some 0⟩) = true
    ∧ str_ends_with (format_timestamp env_utc (some "2025-11-25T12:34:56Z")) "UTC" = true :=
  ⟨(c3_local_date env_utc "2025-11-25T12:34:56Z" ⟨2025, 11, 25, 12, 34, 56, some 0⟩
      (by decide) (by decide)).1,
   (c3_local_date env_utc "2025-11-25T12:34:56Z" ⟨2025, 11, 25, 12, 34, 56, some 0⟩
      (by decide) (by decide)).2 (by decide)⟩

/-- Claim C6 (evidence): `format_timestamp` returns "N/A" for a null input
and echoes an unparsable input unchanged; but the valid input
`0001-01-01T00:00:00+10:00` parses successfully and its conversion to a UTC
host timezone lands on year 0, outside the year range CPython's `datetime`
supports — there `astimezone()` raises `OverflowError`, which the source's
`except (ValueError, AttributeError)` does not catch, so the real
`format_timestamp` raises on that input, contradicting "never raises". -/
theorem c6_never_raises_evidence :
    format_timestamp env_utc none = "N/A"
    ∧ format_timestamp env_utc (some "invalid") = "invalid"
    ∧ (py_fromisoformat (replace_Z "0001-01-01T00:00:00+10:00")).map (astimezone_in_range 0)
      = some false :=
  ⟨rfl, by decide, by decide⟩
